import Mathlib

namespace Zulip

/-! Shallow embedding of the account-management layer of the repository
(zerver/forms.py and zerver/views/users.py): subdomain validation, captcha
verification, password reset, user deactivation, role changes, avatar
endpoints and bot provisioning.  External framework and library calls
(database lookups, the rate limiter, the altcha library, action functions)
are abstracted as explicit parameters or environment structures. -/

/-! ### Subdomain validation (check_subdomain_available, zerver/forms.py) -/

/-- The distinct validation errors raised by check_subdomain_available
(keys of its error_strings table; the reserved case is raised as an
OverridableValidationError in the source). -/
inductive SubdomainError where
  | tooShort
  | extremalDash
  | badCharacter
  | unavailable
  | reserved
  deriving DecidableEq, Repr

/-- Modelled from the spec: Realm.SUBDOMAIN_FOR_ROOT_DOMAIN, the
root-domain sentinel subdomain (the empty subdomain, denoting the root
domain). -/
def SUBDOMAIN_FOR_ROOT_DOMAIN : String := ""

/-- The parts of the database and configuration consulted by
check_subdomain_available: whether a subdomain is taken by an existing
realm (the Realm.objects string_id filter), whether it is reserved
(is_reserved_subdomain), and whether the root domain is free
(is_root_domain_available, modelled from the spec: available only if no
realm already claims the root domain). -/
structure RealmStore where
  registered : String → Bool
  isReservedSubdomain : String → Bool
  rootDomainAvailable : Bool

/-- A character allowed by the subdomain regular expression: lowercase
letter, digit or dash. -/
def isSubdomainChar (c : Char) : Bool :=
  (('a' ≤ c) && (c ≤ 'z')) || (('0' ≤ c) && (c ≤ '9')) || (c == '-')

/-- check_subdomain_available from zerver/forms.py.  The outer Option
models the possible IndexError of the character accesses subdomain[0] and
subdomain[-1] (none would mean an out-of-bounds access); the inner Except
is the raised ValidationError, if any. -/
def check_subdomain_available (st : RealmStore) (subdomain : String)
    (allowReservedSubdomain : Bool) : Option (Except SubdomainError Unit) :=
  if subdomain = SUBDOMAIN_FOR_ROOT_DOMAIN then
    if st.rootDomainAvailable then some (.ok ())
    else some (.error .unavailable)
  else
    match subdomain.data.head?, subdomain.data.getLast? with
    | some c0, some c1 =>
      if c0 == '-' || c1 == '-' then some (.error .extremalDash)
      else if !(subdomain.data.all isSubdomainChar) then some (.error .badCharacter)
      else if subdomain.length < 3 then some (.error .tooShort)
      else if st.registered subdomain then some (.error .unavailable)
      else if st.isReservedSubdomain subdomain && !allowReservedSubdomain then
        some (.error .reserved)
      else some (.ok ())
    | _, _ => none

/-- C5: every candidate subdomain of length at least 3 made only of
lowercase letters, digits and dashes, not starting or ending with a dash,
not already registered by an existing realm, and not reserved, is accepted
by check_subdomain_available (it returns without raising a validation
error). -/
theorem subdomain_good_accepted (st : RealmStore) (s : String)
    (hall : s.data.all isSubdomainChar = true)
    (hlen : 3 ≤ s.length)
    (hfirst : s.data.head? ≠ some '-')
    (hlast : s.data.getLast? ≠ some '-')
    (hreg : st.registered s = false)
    (hres : st.isReservedSubdomain s = false) :
    check_subdomain_available st s false = some (.ok ()) := by
  have hdne : s.data ≠ [] := by
    intro h
    rw [show s.length = s.data.length from rfl, h] at hlen
    simp at hlen
  have hne : s ≠ SUBDOMAIN_FOR_ROOT_DOMAIN := by
    intro h
    apply hdne
    rw [h]
    rfl
  have h1 : s.data.head? = some (s.data.head hdne) := List.head?_eq_head hdne
  have h2 : s.data.getLast? = some (s.data.getLast hdne) :=
    List.getLast?_eq_getLast s.data hdne
  have hc0 : (s.data.head hdne == '-') = false := by
    rw [h1] at hfirst
    simp only [beq_eq_false_iff_ne, ne_eq]
    intro h
    exact hfirst (by rw [h])
  have hc1 : (s.data.getLast hdne == '-') = false := by
    rw [h2] at hlast
    simp only [beq_eq_false_iff_ne, ne_eq]
    intro h
    exact hlast (by rw [h])
  unfold check_subdomain_available
  rw [if_neg hne, h1, h2]
  simp only [hc0, hc1, Bool.or_self, Bool.false_eq_true, if_false, hall,
    Bool.not_true, hreg, hres, Bool.false_and]
  rw [if_neg (by omega)]

/-- C5 witness: the subdomain chat3 is accepted when free and not
reserved. -/
theorem subdomain_good_accepted_witness :
    check_subdomain_available
      ⟨fun _ => false, fun _ => false, true⟩ "chat3" false = some (.ok ()) :=
  subdomain_good_accepted ⟨fun _ => false, fun _ => false, true⟩ "chat3"
    (by decide) (by decide) (by decide) (by decide) rfl rfl

/-- C6: the root-domain sentinel input is accepted by
check_subdomain_available if and only if no realm currently owns the root
domain; when a realm owns it, the check fails with the unavailable
error. -/
theorem subdomain_root_sentinel (st : RealmStore) (b : Bool) :
    (check_subdomain_available st SUBDOMAIN_FOR_ROOT_DOMAIN b = some (.ok ()) ↔
      st.rootDomainAvailable = true) ∧
    (st.rootDomainAvailable = false →
      check_subdomain_available st SUBDOMAIN_FOR_ROOT_DOMAIN b =
        some (.error .unavailable)) := by
  unfold check_subdomain_available
  rw [if_pos rfl]
  cases h : st.rootDomainAvailable <;> simp

/-- C6 witness: with a realm owning the root domain the sentinel is
rejected as unavailable. -/
theorem subdomain_root_sentinel_witness :
    check_subdomain_available ⟨fun _ => false, fun _ => false, false⟩
      SUBDOMAIN_FOR_ROOT_DOMAIN false = some (.error .unavailable) :=
  (subdomain_root_sentinel ⟨fun _ => false, fun _ => false, false⟩ false).2 rfl

/-- C10: for every input string that is non-empty or equal to the
root-domain sentinel, check_subdomain_available performs no out-of-bounds
character access (the indexing of the first and last character happens
only after the sentinel branch has returned or raised), so the function is
total under that precondition. -/
theorem subdomain_no_out_of_bounds (st : RealmStore) (s : String) (b : Bool)
    (h : s ≠ "" ∨ s = SUBDOMAIN_FOR_ROOT_DOMAIN) :
    (check_subdomain_available st s b).isSome = true := by
  unfold check_subdomain_available
  by_cases hs : s = SUBDOMAIN_FOR_ROOT_DOMAIN
  · rw [if_pos hs]
    cases st.rootDomainAvailable <;> simp
  · rw [if_neg hs]
    have hne : s ≠ "" := by
      rcases h with h | h
      · exact h
      · exact absurd h hs
    have hdne : s.data ≠ [] := by
      intro hd
      apply hne
      cases s
      simp at hd
      rw [hd]
    have h1 : s.data.head? = some (s.data.head hdne) := List.head?_eq_head hdne
    have h2 : s.data.getLast? = some (s.data.getLast hdne) :=
      List.getLast?_eq_getLast s.data hdne
    rw [h1, h2]
    by_cases hc : (s.data.head hdne == '-' || s.data.getLast hdne == '-') = true
    · simp [hc]
    · simp only [Bool.not_eq_true] at hc
      simp only [hc, Bool.false_eq_true, if_false]
      by_cases hb : s.data.all isSubdomainChar = true <;>
        by_cases hl : s.length < 3 <;>
        by_cases hr : st.registered s = true <;>
        by_cases hv : (st.isReservedSubdomain s && !b) = true <;>
        simp [hb, hl, hr, hv]

/-- C10 witness: the one-character subdomain x (non-empty) is processed
without out-of-bounds access. -/
theorem subdomain_no_out_of_bounds_witness :
    (check_subdomain_available ⟨fun _ => false, fun _ => false, true⟩
      "x" false).isSome = true :=
  subdomain_no_out_of_bounds ⟨fun _ => false, fun _ => false, true⟩ "x" false
    (Or.inl (by decide))

/-! ### Captcha verification (CaptchaRealmCreationForm.clean_captcha,
zerver/forms.py) -/

/-- The validation errors raised by clean_captcha: the
challenges-not-enabled error, and the single generic validation-failed
error used both for an invalid solution and for a challenge absent from
the session (expired or already consumed). -/
inductive CaptchaError where
  | challengesNotEnabled
  | validationFailed
  deriving DecidableEq, Repr

/-- The ambient configuration and external altcha library as used by
clean_captcha: settings.USING_CAPTCHA, whether settings.ALTCHA_HMAC_KEY is
set, verify_solution on the submitted payload (collapsed to its boolean ok
result; an exception raised by the library also yields failure in the
source), and the decoding of the payload to its challenge identifier
(orjson.loads of the base64-decoded payload, field challenge). -/
structure CaptchaEnv where
  usingCaptcha : Bool
  hmacKeySet : Bool
  verifySolution : String → Bool
  decodeChallenge : String → String

/-- CaptchaRealmCreationForm.clean_captcha from zerver/forms.py, as a
function of the session state (the altcha_challenges list of pairs of a
challenge identifier and its expiry stamp): on success it returns the
decoded challenge identifier together with the updated session list, from
which every entry carrying that identifier has been removed. -/
def clean_captcha (env : CaptchaEnv) (session : List (String × Nat))
    (payload : String) : Except CaptchaError (String × List (String × Nat)) :=
  if !env.usingCaptcha || !env.hmacKeySet then .error .challengesNotEnabled
  else if !env.verifySolution payload then .error .validationFailed
  else
    let challenge := env.decodeChallenge payload
    let sessionChallenges := session.map Prod.fst
    if !(sessionChallenges.contains challenge) then .error .validationFailed
    else .ok (challenge, session.filter (fun e => e.fst != challenge))

/-- C1: if clean_captcha succeeds for a payload whose challenge identifier
is present in the session's outstanding-challenge list, the identifier is
removed from that list, and a second submission of the identical payload
fails validation at the session-lookup step with the same generic
validation error as an expired challenge: a verified challenge can never
be verified again. -/
theorem captcha_single_use (env : CaptchaEnv)
    (session sessionAfter : List (String × Nat)) (payload c : String)
    (h : clean_captcha env session payload = .ok (c, sessionAfter)) :
    c ∉ sessionAfter.map Prod.fst ∧
    clean_captcha env sessionAfter payload = .error .validationFailed := by
  unfold clean_captcha at h ⊢
  by_cases h1 : (!env.usingCaptcha || !env.hmacKeySet) = true
  · rw [if_pos h1] at h
    exact absurd h (by simp)
  · rw [if_neg h1] at h ⊢
    by_cases h2 : (!env.verifySolution payload) = true
    · rw [if_pos h2] at h
      exact absurd h (by simp)
    · rw [if_neg h2] at h ⊢
      by_cases h3 :
          (!((session.map Prod.fst).contains (env.decodeChallenge payload))) = true
      · rw [if_pos h3] at h
        exact absurd h (by simp)
      · rw [if_neg h3] at h
        simp only [Except.ok.injEq, Prod.mk.injEq] at h
        obtain ⟨hc, hs⟩ := h
        have hnotmem : c ∉ sessionAfter.map Prod.fst := by
          rw [← hs, ← hc]
          intro hmem
          rw [List.mem_map] at hmem
          obtain ⟨e, hmemf, hfst⟩ := hmem
          rw [List.mem_filter] at hmemf
          have hne := hmemf.2
          rw [bne_iff_ne] at hne
          exact hne hfst
        refine ⟨hnotmem, ?_⟩
        rw [if_pos ?_]
        rw [hc]
        simp [hnotmem]

/-- C1 witness: a concrete session holding challenge ch1; the first
submission succeeds and consumes it, the replay fails. -/
theorem captcha_single_use_witness :
    ("ch1" : String) ∉ ([] : List (String × Nat)).map Prod.fst ∧
    clean_captcha ⟨true, true, fun _ => true, fun _ => "ch1"⟩ [] "payload" =
      .error .validationFailed :=
  captcha_single_use ⟨true, true, fun _ => true, fun _ => "ch1"⟩
    [("ch1", 5)] [] "payload" "ch1" rfl

/-! ### Users, roles and self-deactivation
(check_last_owner and deactivate_user_own_backend, zerver/views/users.py) -/

/-- Modelled from the spec: the ordered privilege roles of a UserProfile
(owner, administrator, moderator, member, guest) as distinct numeric
levels. -/
def ROLE_REALM_OWNER : Nat := 100

def ROLE_REALM_ADMINISTRATOR : Nat := 200

def ROLE_MODERATOR : Nat := 300

def ROLE_MEMBER : Nat := 400

def ROLE_GUEST : Nat := 600

/-- The fields of a UserProfile row consulted by the handlers under
verification. -/
structure UserProfile where
  id : Nat
  realmId : Nat
  isActive : Bool
  isBot : Bool
  role : Nat
  fullName : String
  deliveryEmail : String
  botOwnerId : Option Nat
  deriving DecidableEq, Repr

/-- UserProfile.is_realm_owner: the user holds the realm-owner role. -/
def UserProfile.isRealmOwner (u : UserProfile) : Bool :=
  u.role == ROLE_REALM_OWNER

/-- Modelled from the spec: realm.get_human_owner_users() — the active
human (non-bot) users of the realm holding the owner role. -/
def get_human_owner_users (users : List UserProfile) (realmId : Nat) :
    List UserProfile :=
  users.filter fun u =>
    u.realmId == realmId && u.isActive && !u.isBot && u.isRealmOwner

/-- check_last_owner from zerver/views/users.py: the target holds the
owner role, is human, and the realm has exactly one human owner. -/
def check_last_owner (users : List UserProfile) (u : UserProfile) : Bool :=
  u.isRealmOwner && !u.isBot &&
    (get_human_owner_users users u.realmId).length == 1

/-- The error raised when self-deactivation would remove the last user or
last owner, carrying the is_last_owner field of the response. -/
inductive DeactivateError where
  | cannotDeactivateLastUser (isLastOwner : Bool)
  deriving DecidableEq, Repr

/-- Modelled from the spec: do_deactivate_user clears the active flag of
the target user. -/
def do_deactivate_user (users : List UserProfile) (targetId : Nat) :
    List UserProfile :=
  users.map fun v => if v.id == targetId then { v with isActive := false } else v

/-- deactivate_user_own_backend from zerver/views/users.py: the caller
deactivates their own account; on success the updated user store is
returned. -/
def deactivate_user_own_backend (users : List UserProfile) (u : UserProfile) :
    Except DeactivateError (List UserProfile) :=
  if (users.filter fun v => v.realmId == u.realmId && v.isActive).length == 1 then
    .error (.cannotDeactivateLastUser false)
  else if u.isRealmOwner && check_last_owner users u then
    .error (.cannotDeactivateLastUser true)
  else .ok (do_deactivate_user users u.id)

/-- C2: when the caller is the sole active user of their realm (the active
users of the realm are exactly the caller), deactivate_user_own_backend
fails with CannotDeactivateLastUserError carrying is_last_owner false;
when the caller is the realm's only active human owner and another active
non-owner user of the realm exists, it fails with is_last_owner true.  In
both cases the result is an error, so no user is deactivated. -/
theorem deactivate_own_last_user (users : List UserProfile) (u v : UserProfile) :
    ((users.filter fun w => w.realmId == u.realmId && w.isActive) = [u] →
      deactivate_user_own_backend users u =
        .error (.cannotDeactivateLastUser false)) ∧
    (u.isRealmOwner = true → u.isBot = false →
      get_human_owner_users users u.realmId = [u] →
      v ∈ users → v.realmId = u.realmId → v.isActive = true →
      v.isRealmOwner = false →
      deactivate_user_own_backend users u =
        .error (.cannotDeactivateLastUser true)) := by
  constructor
  · intro hsole
    unfold deactivate_user_own_backend
    rw [hsole]
    simp
  · intro hown hbot howners hvmem hvrealm hvact hvown
    have huv : u ≠ v := by
      intro h
      rw [← h] at hvown
      rw [hown] at hvown
      exact absurd hvown (by simp)
    have humem : u ∈ users.filter fun w => w.realmId == u.realmId && w.isActive := by
      have : u ∈ get_human_owner_users users u.realmId := by
        rw [howners]; exact List.mem_singleton.mpr rfl
      unfold get_human_owner_users at this
      rw [List.mem_filter] at this
      rw [List.mem_filter]
      refine ⟨this.1, ?_⟩
      have h2 := this.2
      simp only [Bool.and_eq_true] at h2 ⊢
      exact ⟨h2.1.1.1, h2.1.1.2⟩
    have hvmemf : v ∈ users.filter fun w => w.realmId == u.realmId && w.isActive := by
      rw [List.mem_filter]
      refine ⟨hvmem, ?_⟩
      simp only [Bool.and_eq_true, beq_iff_eq]
      exact ⟨hvrealm, hvact⟩
    have hlen : (users.filter fun w => w.realmId == u.realmId && w.isActive).length ≠ 1 := by
      intro h1
      obtain ⟨a, ha⟩ := List.length_eq_one.mp h1
      rw [ha] at humem hvmemf
      rw [List.mem_singleton] at humem hvmemf
      exact huv (humem.trans hvmemf.symm)
    unfold deactivate_user_own_backend
    rw [if_neg (by simpa using hlen)]
    rw [if_pos ?_]
    rw [Bool.and_eq_true]
    refine ⟨hown, ?_⟩
    unfold check_last_owner
    rw [howners]
    simp [hown, hbot]

/-- An active human owner of realm 7, used in concrete instantiations. -/
def userA : UserProfile :=
  { id := 1, realmId := 7, isActive := true, isBot := false,
    role := 100, fullName := "A", deliveryEmail := "a@x", botOwnerId := none }

/-- An active human member of realm 7, used in concrete instantiations. -/
def userB : UserProfile :=
  { id := 2, realmId := 7, isActive := true, isBot := false,
    role := 400, fullName := "B", deliveryEmail := "b@x", botOwnerId := none }

/-- C2 witness: a singleton realm whose sole active user deactivates
themself, and a two-user realm whose only active human owner does. -/
theorem deactivate_own_last_user_witness :
    deactivate_user_own_backend [userA] userA =
      .error (.cannotDeactivateLastUser false) ∧
    deactivate_user_own_backend [userA, userB] userA =
      .error (.cannotDeactivateLastUser true) := by
  constructor
  · exact (deactivate_own_last_user [userA] userA userA).1 (by decide)
  · exact (deactivate_own_last_user [userA, userB] userA userB).2
      (by decide) (by decide) (by decide) (by decide) (by decide) (by decide)
      (by decide)

/-! ### Role changes
(update_user_backend and patch_bot_backend, zerver/views/users.py) -/

/-- The error classes raised by the request handlers under verification.
JsonableError carries its message (paraphrased without punctuation quirks
where needed); the other constructors are the structured exception
classes of zerver/lib/exceptions. -/
inductive ApiError where
  | jsonableError (msg : String)
  | organizationOwnerRequired
  | organizationAdministratorRequired
  | missingAuthentication
  | emailAlreadyInUse
  | rateLimited (secsToFreedom : Nat)
  deriving DecidableEq, Repr

/-- Sequencing of two effectful steps: the first raised error, if any,
aborts the request (Python exception propagation). -/
def seqE {α : Type} (a : Except ApiError Unit) (b : Except ApiError α) :
    Except ApiError α :=
  match a with
  | .error e => .error e
  | .ok _ => b

theorem seqE_error {α : Type} (e : ApiError) (b : Except ApiError α) :
    seqE (.error e) b = .error e := rfl

theorem seqE_ok {α : Type} (b : Except ApiError α) : seqE (.ok ()) b = b := rfl

/-- An optional request parameter: Python "if x is not None: body". -/
def opt_step {α : Type} (o : Option α) (f : α → Except ApiError Unit) :
    Except ApiError Unit :=
  match o with
  | none => .ok ()
  | some x => f x

theorem opt_step_none {α : Type} (f : α → Except ApiError Unit) :
    opt_step none f = .ok () := rfl

theorem opt_step_some {α : Type} (x : α) (f : α → Except ApiError Unit) :
    opt_step (some x) f = f x := rfl

/-- Sequencing of a value-producing step with its continuation: the first
raised error, if any, aborts the request. -/
def bindE {α β : Type} (a : Except ApiError α) (f : α → Except ApiError β) :
    Except ApiError β :=
  match a with
  | .error e => .error e
  | .ok x => f x

theorem bindE_ok {α β : Type} (x : α) (f : α → Except ApiError β) :
    bindE (.ok x) f = f x := rfl

theorem bindE_error {α β : Type} (e : ApiError) (f : α → Except ApiError β) :
    bindE (.error e) f = .error e := rfl

/-- The properties of the acting user consulted by update_user_backend and
patch_bot_backend: realm-owner and realm-administrator status and the
can_change_user_emails permission. -/
structure Actor where
  isRealmOwner : Bool
  isRealmAdmin : Bool
  canChangeUserEmails : Bool
  deriving DecidableEq, Repr

/-- Outcomes of the external calls made by update_user_backend:
check_change_full_name, the custom-profile-data validation and update
(collapsed to one outcome), validators.validate_email,
validate_email_not_already_in_realm (error carries the message), the
billing flag and the spare-license seat check. -/
structure UpdateUserEnv where
  checkChangeFullName : String → Except ApiError Unit
  profileDataUpdate : Except ApiError Unit
  validateEmailOk : String → Bool
  emailNotAlreadyInRealm : String → Except String Unit
  billingEnabled : Bool
  spareLicenseCheck : Except ApiError Unit

/-- The role-permission block of update_user_backend (run when a role is
supplied and differs from the target's): owner involvement requires an
owner caller, any change requires an admin caller, the last owner's owner
role cannot be removed, and a guest promotion consults billing. -/
def update_user_role_check (env : UpdateUserEnv) (users : List UserProfile)
    (actor : Actor) (target : UserProfile) (r : Nat) : Except ApiError Unit :=
  if (r == ROLE_REALM_OWNER || target.role == ROLE_REALM_OWNER)
      && !actor.isRealmOwner then
    .error .organizationOwnerRequired
  else if !actor.isRealmAdmin then
    .error .organizationAdministratorRequired
  else
    seqE
      (if target.role == ROLE_REALM_OWNER && check_last_owner users target then
        .error (.jsonableError
          "The owner permission cannot be removed from the only organization owner.")
      else .ok ())
      (if env.billingEnabled && target.role == ROLE_GUEST then
        env.spareLicenseCheck
      else .ok ())

/-- update_user_backend from zerver/views/users.py, with the external
action functions abstracted by the environment; the result is the raised
error, if any (the state mutations are performed by the abstracted action
functions). -/
def update_user_backend (env : UpdateUserEnv) (users : List UserProfile)
    (actor : Actor) (target : UserProfile)
    (fullName newEmail : Option String) (profileData : Option Unit)
    (role : Option Nat) : Except ApiError Unit :=
  if newEmail.isSome && (!actor.canChangeUserEmails || !actor.isRealmAdmin) then
    .error (.jsonableError "User not authorized to change user emails")
  else
    seqE
      (opt_step role fun r =>
        if r ≠ target.role then update_user_role_check env users actor target r
        else .ok ())
      (seqE
        (opt_step fullName fun fn =>
          if fn ≠ target.fullName ∧ fn.trim ≠ "" then env.checkChangeFullName fn
          else .ok ())
        (seqE
          (opt_step profileData fun _ => env.profileDataUpdate)
          (opt_step newEmail fun e =>
            if e ≠ target.deliveryEmail then
              if !(env.validateEmailOk e) then
                .error (.jsonableError "Invalid new email address.")
              else
                match env.emailNotAlreadyInRealm e with
                | .error m =>
                  .error (.jsonableError ("New email value error: " ++ m))
                | .ok _ => .ok ()
            else .ok ())))

/-- Outcomes of the external calls made by patch_bot_backend:
access_bot_by_id, check_change_bot_full_name, the owner lookup
(get_user_profile_by_id_in_realm, none meaning DoesNotExist),
access_stream_by_name and check_valid_interface_type. -/
structure PatchBotEnv where
  accessBotById : Except ApiError UserProfile
  checkChangeBotFullName : String → Except ApiError Unit
  ownerLookup : Nat → Option UserProfile
  streamAccess : String → Except ApiError Unit
  checkValidInterfaceType : Nat → Except ApiError Unit

/-- The owner-reassignment block of patch_bot_backend: the new owner must
exist in the realm, be active, and not be a bot. -/
def patch_bot_owner_step (env : PatchBotEnv) (bot : UserProfile)
    (botOwnerId : Option Nat) : Except ApiError Unit :=
  opt_step botOwnerId fun oid =>
    if bot.botOwnerId ≠ some oid then
      match env.ownerLookup oid with
      | none => .error (.jsonableError "Failed to change owner, no such user")
      | some owner =>
        if !owner.isActive then
          .error (.jsonableError "Failed to change owner, user is deactivated")
        else if owner.isBot then
          .error (.jsonableError "Failed to change owner, bots cannot own other bots")
        else .ok ()
    else .ok ()

/-- The default-stream update block of patch_bot_backend: an empty name
clears the stream, otherwise the stream is resolved by name (which may
fail). -/
def patch_bot_stream_step (env : PatchBotEnv) (streamName : Option String) :
    Except ApiError Unit :=
  opt_step streamName fun s => if s = "" then .ok () else env.streamAccess s

/-- The avatar-file block shared by patch_bot_backend (and, for the error
branch, add_bot_backend): zero files is a no-op, one file is uploaded,
more than one file is rejected. -/
def patch_bot_files_step (numFiles : Nat) : Except ApiError Unit :=
  if numFiles == 0 then .ok ()
  else if numFiles == 1 then .ok ()
  else .error (.jsonableError "You may only upload one file at a time")

/-- patch_bot_backend from zerver/views/users.py, with the external action
functions abstracted by the environment; the result is the raised error,
if any. -/
def patch_bot_backend (env : PatchBotEnv) (actor : Actor)
    (fullName : Option String) (role : Option Nat) (botOwnerId : Option Nat)
    (defaultSendingStream defaultEventsRegisterStream : Option String)
    (servicePayloadUrl : Option String) (serviceInterface : Nat)
    (numFiles : Nat) : Except ApiError Unit :=
  bindE env.accessBotById fun bot =>
    seqE
      (opt_step fullName fun fn => env.checkChangeBotFullName fn)
      (seqE
        (opt_step role fun r =>
          if r ≠ bot.role then
            if (r == ROLE_REALM_OWNER || bot.role == ROLE_REALM_OWNER)
                && !actor.isRealmOwner then
              .error .organizationOwnerRequired
            else if !actor.isRealmAdmin then
              .error .organizationAdministratorRequired
            else .ok ()
          else .ok ())
        (seqE (patch_bot_owner_step env bot botOwnerId)
          (seqE (patch_bot_stream_step env defaultSendingStream)
            (seqE (patch_bot_stream_step env defaultEventsRegisterStream)
              (seqE
                (opt_step servicePayloadUrl fun _ =>
                  env.checkValidInterfaceType serviceInterface)
                (patch_bot_files_step numFiles))))))

/-- A benign update environment in which every external check succeeds. -/
def updateEnvOk : UpdateUserEnv :=
  { checkChangeFullName := fun _ => .ok ()
    profileDataUpdate := .ok ()
    validateEmailOk := fun _ => true
    emailNotAlreadyInRealm := fun _ => .ok ()
    billingEnabled := false
    spareLicenseCheck := .ok () }

/-- C3 counterexample: a role change to the owner role requested by a
non-owner (and non-admin) caller does not fail with the owner-required
error when the request also carries a new email address: the
email-authorization check runs first and raises its own error, so the
claim does not hold regardless of other parameters. -/
theorem role_change_owner_counterexample :
    update_user_backend updateEnvOk [] ⟨false, false, false⟩ userB
      none (some "new@x") none (some ROLE_REALM_OWNER) =
      .error (.jsonableError "User not authorized to change user emails") ∧
    update_user_backend updateEnvOk [] ⟨false, false, false⟩ userB
      none (some "new@x") none (some ROLE_REALM_OWNER) ≠
      .error .organizationOwnerRequired := by
  constructor
  · rfl
  · intro h
    rw [show update_user_backend updateEnvOk [] ⟨false, false, false⟩ userB
        none (some "new@x") none (some ROLE_REALM_OWNER) =
        .error (.jsonableError "User not authorized to change user emails")
      from rfl] at h
    exact absurd h (by simp)

/-- C3 amended: a role-change request in which the requested role or the
target's current role is the owner role and the acting user is not a realm
owner fails with OrganizationOwnerRequiredError regardless of the
remaining parameters, provided the handler reaches its role-permission
check: for update_user_backend, the new-email authorization check must
pass (no new email requested, or the caller may change emails and is an
admin); for patch_bot_backend, bot access and the full-name check must
succeed. -/
theorem role_change_owner_requires_owner (env : UpdateUserEnv)
    (benv : PatchBotEnv) (users : List UserProfile) (actor : Actor)
    (target bot : UserProfile) (fullName newEmail : Option String)
    (profileData : Option Unit) (r : Nat) (botOwnerId : Option Nat)
    (dss ders spu : Option String) (serviceInterface numFiles : Nat)
    (hactor : actor.isRealmOwner = false) :
    (r ≠ target.role → (r = ROLE_REALM_OWNER ∨ target.role = ROLE_REALM_OWNER) →
      (newEmail = none ∨
        (actor.canChangeUserEmails = true ∧ actor.isRealmAdmin = true)) →
      update_user_backend env users actor target fullName newEmail profileData
        (some r) = .error .organizationOwnerRequired) ∧
    (benv.accessBotById = .ok bot →
      (∀ fn, fullName = some fn → benv.checkChangeBotFullName fn = .ok ()) →
      r ≠ bot.role → (r = ROLE_REALM_OWNER ∨ bot.role = ROLE_REALM_OWNER) →
      patch_bot_backend benv actor fullName (some r) botOwnerId dss ders spu
        serviceInterface numFiles = .error .organizationOwnerRequired) := by
  constructor
  · intro hne hinv hemail
    have hcond : ((r == ROLE_REALM_OWNER || target.role == ROLE_REALM_OWNER)
        && !actor.isRealmOwner) = true := by
      rw [hactor]
      rcases hinv with h | h <;> simp [h]
    have hrc : update_user_role_check env users actor target r =
        .error .organizationOwnerRequired := by
      unfold update_user_role_check
      rw [if_pos hcond]
    unfold update_user_backend
    rw [if_neg ?_]
    · rw [opt_step_some, if_pos hne, hrc, seqE_error]
    · rcases hemail with h | ⟨h1, h2⟩
      · simp [h]
      · simp [h1, h2]
  · intro haccess hfn hne hinv
    have hcond : ((r == ROLE_REALM_OWNER || bot.role == ROLE_REALM_OWNER)
        && !actor.isRealmOwner) = true := by
      rw [hactor]
      rcases hinv with h | h <;> simp [h]
    have hfnstep :
        opt_step fullName (fun fn => benv.checkChangeBotFullName fn) = .ok () := by
      cases fullName with
      | none => rfl
      | some fn => exact hfn fn rfl
    unfold patch_bot_backend
    rw [haccess, bindE_ok, hfnstep, seqE_ok, opt_step_some, if_pos hne,
      if_pos hcond, seqE_error]

/-- C3 amended witness: a non-owner admin caller demoting an owner target
fails with the owner-required error in both handlers. -/
theorem role_change_owner_requires_owner_witness :
    update_user_backend updateEnvOk [] ⟨false, true, false⟩ userA
      none none none (some ROLE_MEMBER) = .error .organizationOwnerRequired ∧
    patch_bot_backend
      ⟨.ok userA, fun _ => .ok (), fun _ => none, fun _ => .ok (),
        fun _ => .ok ()⟩
      ⟨false, true, false⟩ none (some ROLE_MEMBER) none none none none 1 0 =
      .error .organizationOwnerRequired := by
  constructor
  · exact (role_change_owner_requires_owner updateEnvOk
      ⟨.ok userA, fun _ => .ok (), fun _ => none, fun _ => .ok (),
        fun _ => .ok ()⟩
      [] ⟨false, true, false⟩ userA userA none none none ROLE_MEMBER none
      none none none 1 0 rfl).1 (by decide) (by decide) (Or.inl rfl)
  · exact (role_change_owner_requires_owner updateEnvOk
      ⟨.ok userA, fun _ => .ok (), fun _ => none, fun _ => .ok (),
        fun _ => .ok ()⟩
      [] ⟨false, true, false⟩ userA userA none none none ROLE_MEMBER none
      none none none 1 0 rfl).2 rfl (by intro fn h; exact absurd h (by simp))
      (by decide) (Or.inr (by decide))

/-! ### Rate-limited password reset
(ZulipPasswordResetForm.save, zerver/forms.py) -/

/-- The realm- and settings-level state consulted by
ZulipPasswordResetForm.save: email_auth_enabled for the realm,
email_belongs_to_ldap, the realm deactivation flag, settings.RATE_LIMITING,
the two rate limiters (some secs means the counter is exceeded and raising
RateLimitedError with that many seconds to freedom), and whether a user
with the given delivery email exists in the realm. -/
structure ResetEnv where
  emailAuthEnabled : Bool
  emailBelongsToLdap : String → Bool
  realmDeactivated : Bool
  rateLimiting : Bool
  emailRateLimit : String → Option Nat
  ipRateLimit : Option Nat
  userExists : String → Bool

/-- The observable outcome of a successful ZulipPasswordResetForm.save:
either one of the silent early returns, or the call to
do_send_password_reset_email (which receives the matched user, or None
when no account matches). -/
inductive ResetOutcome where
  | silentlySkipped
  | emailSent (userFound : Bool)
  deriving DecidableEq, Repr

/-- The rate-limiting block of ZulipPasswordResetForm.save: when
settings.RATE_LIMITING is on, first the per-email sliding-window counter
(rate_limit_password_reset_form_by_email), then the per-source-IP counter
(rate_limit_request_by_ip) is consulted; an exceeded counter raises
RateLimitedError with the seconds to freedom. -/
def password_reset_rate_limit (env : ResetEnv) (email : String) :
    Except ApiError Unit :=
  if env.rateLimiting then
    match env.emailRateLimit email with
    | some secs => .error (.rateLimited secs)
    | none =>
      match env.ipRateLimit with
      | some secs => .error (.rateLimited secs)
      | none => .ok ()
  else .ok ()

/-- ZulipPasswordResetForm.save from zerver/forms.py: the silent early
returns (password auth disabled for the realm, email managed by LDAP,
realm deactivated), then the rate-limit block, then the user lookup and
the unconditional call to do_send_password_reset_email. -/
def password_reset_save (env : ResetEnv) (email : String) :
    Except ApiError ResetOutcome :=
  if !env.emailAuthEnabled then .ok .silentlySkipped
  else if env.emailBelongsToLdap email then .ok .silentlySkipped
  else if env.realmDeactivated then .ok .silentlySkipped
  else
    seqE (password_reset_rate_limit env email)
      (.ok (.emailSent (env.userExists email)))

/-- C4: ZulipPasswordResetForm.save surfaces an error to the caller only
for rate-limit exceedance, and that error carries the retry-after-seconds
signal with no email sent (an error result produces no emailSent outcome);
when the per-email or the per-source-IP counter is exceeded and no silent
condition holds (and rate limiting is configured), the operation fails
that way; and in every silent-fail condition — password auth disabled,
LDAP-managed credential, deactivated realm, and (when no counter fires) no
matching account — it returns success to the caller without raising. -/
theorem password_reset_error_only_rate_limit (env : ResetEnv) (email : String) :
    (∀ e, password_reset_save env email = .error e →
      env.rateLimiting = true ∧ env.emailAuthEnabled = true ∧
      env.emailBelongsToLdap email = false ∧ env.realmDeactivated = false ∧
      ∃ secs, e = .rateLimited secs ∧
        (env.emailRateLimit email = some secs ∨
          (env.emailRateLimit email = none ∧ env.ipRateLimit = some secs))) ∧
    (∀ secs, env.emailAuthEnabled = true → env.emailBelongsToLdap email = false →
      env.realmDeactivated = false → env.rateLimiting = true →
      (env.emailRateLimit email = some secs ∨
        (env.emailRateLimit email = none ∧ env.ipRateLimit = some secs)) →
      password_reset_save env email = .error (.rateLimited secs)) ∧
    (env.emailAuthEnabled = false →
      password_reset_save env email = .ok .silentlySkipped) ∧
    (env.emailBelongsToLdap email = true → env.emailAuthEnabled = true →
      password_reset_save env email = .ok .silentlySkipped) ∧
    (env.realmDeactivated = true → env.emailAuthEnabled = true →
      env.emailBelongsToLdap email = false →
      password_reset_save env email = .ok .silentlySkipped) ∧
    (env.userExists email = false → env.emailAuthEnabled = true →
      env.emailBelongsToLdap email = false → env.realmDeactivated = false →
      password_reset_rate_limit env email = .ok () →
      password_reset_save env email = .ok (.emailSent false)) := by
  refine ⟨?_, ?_, ?_, ?_, ?_, ?_⟩
  · intro e h
    unfold password_reset_save at h
    by_cases h1 : env.emailAuthEnabled = true
    · by_cases h2 : env.emailBelongsToLdap email = true
      · rw [if_neg (by simp [h1]), if_pos h2] at h
        exact absurd h (by simp)
      · by_cases h3 : env.realmDeactivated = true
        · rw [if_neg (by simp [h1]), if_neg h2, if_pos h3] at h
          exact absurd h (by simp)
        · rw [if_neg (by simp [h1]), if_neg h2, if_neg h3] at h
          simp only [Bool.not_eq_true] at h2 h3
          refine ⟨?_, h1, h2, h3, ?_⟩ <;>
            unfold password_reset_rate_limit at h
          · by_cases h4 : env.rateLimiting = true
            · exact h4
            · rw [if_neg h4] at h
              rw [seqE_ok] at h
              exact absurd h (by simp)
          · by_cases h4 : env.rateLimiting = true
            · rw [if_pos h4] at h
              cases h5 : env.emailRateLimit email with
              | some secs =>
                rw [h5] at h
                rw [seqE_error] at h
                refine ⟨secs, ?_, Or.inl rfl⟩
                cases h
                rfl
              | none =>
                rw [h5] at h
                cases h6 : env.ipRateLimit with
                | some secs =>
                  rw [h6] at h
                  rw [seqE_error] at h
                  refine ⟨secs, ?_, Or.inr ⟨rfl, rfl⟩⟩
                  cases h
                  rfl
                | none =>
                  rw [h6] at h
                  rw [seqE_ok] at h
                  exact absurd h (by simp)
            · rw [if_neg h4] at h
              rw [seqE_ok] at h
              exact absurd h (by simp)
    · rw [if_pos (by simp [Bool.not_eq_true] at h1 ⊢; exact h1)] at h
      exact absurd h (by simp)
  · intro secs h1 h2 h3 h4 h5
    unfold password_reset_save
    rw [if_neg (by simp [h1]), if_neg (by simp [h2]), if_neg (by simp [h3])]
    have hrl : password_reset_rate_limit env email =
        .error (.rateLimited secs) := by
      unfold password_reset_rate_limit
      rw [if_pos h4]
      rcases h5 with h | ⟨ha, hb⟩
      · rw [h]
      · rw [ha, hb]
    rw [hrl, seqE_error]
  · intro h1
    unfold password_reset_save
    rw [if_pos (by simp [h1])]
  · intro h1 h2
    unfold password_reset_save
    rw [if_neg (by simp [h2]), if_pos h1]
  · intro h1 h2 h3
    unfold password_reset_save
    rw [if_neg (by simp [h2]), if_neg (by simp [h3]), if_pos h1]
  · intro h1 h2 h3 h4 h5
    unfold password_reset_save
    rw [if_neg (by simp [h2]), if_neg (by simp [h3]), if_neg (by simp [h4]),
      h5, seqE_ok, h1]

/-- C4 witness: a realm with password auth enabled and an exceeded
per-email counter fails with the 37-second retry signal; with auth
disabled the same request silently succeeds. -/
theorem password_reset_error_only_rate_limit_witness :
    password_reset_save
      ⟨true, fun _ => false, false, true, fun _ => some 37, none, fun _ => false⟩
      "u@x" = .error (.rateLimited 37) ∧
    password_reset_save
      ⟨false, fun _ => false, false, true, fun _ => some 37, none, fun _ => false⟩
      "u@x" = .ok .silentlySkipped := by
  constructor
  · exact (password_reset_error_only_rate_limit
      ⟨true, fun _ => false, false, true, fun _ => some 37, none, fun _ => false⟩
      "u@x").2.1 37 rfl rfl rfl rfl (Or.inl rfl)
  · exact (password_reset_error_only_rate_limit
      ⟨false, fun _ => false, false, true, fun _ => some 37, none, fun _ => false⟩
      "u@x").2.2.1 rfl

/-! ### Avatar endpoints
(avatar_by_id and avatar_by_email, zerver/views/users.py) -/

/-- The realm state and external helpers consulted by the avatar
endpoints: the realm's allow_web_public_streams_access flag,
settings.RATE_LIMITING together with the spectator attachment-access rate
limiter (some secs means RateLimitedError), the user lookups (by id in
realm including cross-realm, and by email), check_can_access_user for the
looked-up user, and the computed image URLs (avatar_url for an accessible
user, the inaccessible-user fallback, the gravatar fallback used by the
email variant when no user exists), plus the request query string appended
to the redirect target. -/
structure AvatarEnv where
  allowWebPublicStreamsAccess : Bool
  rateLimiting : Bool
  spectatorRateLimit : Option Nat
  userIdExists : Nat → Bool
  userEmailExists : String → Bool
  canAccessUser : Bool
  avatarUrl : String
  inaccessibleUserUrl : String
  gravatarUrl : String
  queryString : String

/-- Modelled from the spec: append_url_query_string attaches the request
query string to the computed image URL. -/
def append_url_query_string (url qs : String) : String := url ++ "?" ++ qs

/-- The response of an avatar endpoint: a redirect to a computed image
URL (image bytes are never served directly). -/
inductive AvatarResponse where
  | redirect (url : String)
  deriving DecidableEq, Repr

/-- The final redirect of both avatar endpoints: the query string, when
non-empty, is appended to the URL. -/
def avatar_redirect (env : AvatarEnv) (url : String) :
    Except ApiError AvatarResponse :=
  if env.queryString = "" then .ok (.redirect url)
  else .ok (.redirect (append_url_query_string url env.queryString))

/-- avatar_by_id from zerver/views/users.py: an unauthenticated
(spectator) request is allowed only when the realm permits web-public
access, and is then rate limited; the avatar URL of the resolved user (or
the inaccessible-user fallback) is served as a redirect. -/
def avatar_by_id (env : AvatarEnv) (authenticated : Bool) (userId : Nat) :
    Except ApiError AvatarResponse :=
  seqE
    (if !authenticated then
      if !env.allowWebPublicStreamsAccess then .error .missingAuthentication
      else if env.rateLimiting then
        match env.spectatorRateLimit with
        | some secs => .error (.rateLimited secs)
        | none => .ok ()
      else .ok ()
    else .ok ())
    (let url :=
      if env.userIdExists userId then
        if authenticated && !env.canAccessUser then env.inaccessibleUserUrl
        else env.avatarUrl
      else env.inaccessibleUserUrl
    avatar_redirect env url)

/-- avatar_by_email from zerver/views/users.py: an unauthenticated
(spectator) request is always rejected with the missing-authentication
error (only the ID format is allowed for spectators); for authenticated
requests the avatar URL of the resolved user (or the gravatar fallback
when no user exists) is served as a redirect. -/
def avatar_by_email (env : AvatarEnv) (authenticated : Bool) (email : String) :
    Except ApiError AvatarResponse :=
  if !authenticated then .error .missingAuthentication
  else
    let url :=
      if env.userEmailExists email then
        if !env.canAccessUser then env.inaccessibleUserUrl else env.avatarUrl
      else env.gravatarUrl
    avatar_redirect env url

/-- An avatar environment whose realm permits web-public (spectator)
access, with no rate limiting. -/
def avatarEnvPublic : AvatarEnv :=
  { allowWebPublicStreamsAccess := true
    rateLimiting := false
    spectatorRateLimit := none
    userIdExists := fun _ => true
    userEmailExists := fun _ => true
    canAccessUser := true
    avatarUrl := "https://img/x.png"
    inaccessibleUserUrl := "https://img/unknown.png"
    gravatarUrl := "https://gravatar/x.png"
    queryString := "" }

/-- C9 counterexample: an unauthenticated (spectator) request to the
by-email avatar endpoint is rejected with the missing-authentication error
even though the realm's web-public access flag permits spectator access,
so spectator access is not granted on both variants if and only if the
flag permits it. -/
theorem avatar_spectator_counterexample :
    avatarEnvPublic.allowWebPublicStreamsAccess = true ∧
    avatar_by_email avatarEnvPublic false "user@x" =
      .error .missingAuthentication := ⟨rfl, rfl⟩

/-- C9 amended: an unauthenticated (spectator) request to the by-user-id
avatar endpoint succeeds with a redirect to a computed image URL if and
only if the realm's web-public access flag permits it (absent a spectator
rate limit), and otherwise fails with the missing-authentication error;
the by-email variant rejects every unauthenticated request with the
missing-authentication error regardless of the flag. -/
theorem avatar_spectator_access (env : AvatarEnv) (userId : Nat)
    (email : String)
    (hrl : env.rateLimiting = false ∨ env.spectatorRateLimit = none) :
    ((∃ url, avatar_by_id env false userId = .ok (.redirect url)) ↔
      env.allowWebPublicStreamsAccess = true) ∧
    (env.allowWebPublicStreamsAccess = false →
      avatar_by_id env false userId = .error .missingAuthentication) ∧
    avatar_by_email env false email = .error .missingAuthentication := by
  have hbyid : env.allowWebPublicStreamsAccess = false →
      avatar_by_id env false userId = .error .missingAuthentication := by
    intro h
    unfold avatar_by_id
    rw [if_pos (by simp), if_pos (by simp [h]), seqE_error]
  refine ⟨?_, hbyid, ?_⟩
  · constructor
    · rintro ⟨url, hurl⟩
      by_cases h : env.allowWebPublicStreamsAccess = true
      · exact h
      · rw [Bool.not_eq_true] at h
        rw [hbyid h] at hurl
        exact absurd hurl (by simp)
    · intro h
      have hgate :
          (if !(false : Bool) then
            if !env.allowWebPublicStreamsAccess then
              Except.error ApiError.missingAuthentication
            else if env.rateLimiting then
              match env.spectatorRateLimit with
              | some secs => Except.error (ApiError.rateLimited secs)
              | none => Except.ok ()
            else Except.ok ()
          else Except.ok () : Except ApiError Unit) = .ok () := by
        rw [if_pos (by simp), if_neg (by simp [h])]
        rcases hrl with hr | hr
        · rw [if_neg (by simp [hr])]
        · cases hrb : env.rateLimiting
          · rw [if_neg (by simp)]
          · rw [if_pos rfl, hr]
      unfold avatar_by_id
      rw [hgate, seqE_ok]
      unfold avatar_redirect
      by_cases hq : env.queryString = ""
      · rw [if_pos hq]
        exact ⟨_, rfl⟩
      · rw [if_neg hq]
        exact ⟨_, rfl⟩
  · unfold avatar_by_email
    rw [if_pos (by simp)]

/-- C9 amended witness: with spectator access permitted the by-id endpoint
redirects while the by-email endpoint still demands authentication; with
it denied the by-id endpoint also demands authentication. -/
theorem avatar_spectator_access_witness :
    (∃ url, avatar_by_id avatarEnvPublic false 3 = .ok (.redirect url)) ∧
    avatar_by_email avatarEnvPublic false "user@x" =
      .error .missingAuthentication := by
  constructor
  · exact (avatar_spectator_access avatarEnvPublic 3 "user@x"
      (Or.inl rfl)).1.mpr rfl
  · exact (avatar_spectator_access avatarEnvPublic 3 "user@x"
      (Or.inl rfl)).2.2

/-! ### Bot provisioning (add_bot_backend, zerver/views/users.py) -/

/-- Modelled from the spec: the bot types of a UserProfile, as distinct
numeric codes. -/
def DEFAULT_BOT : Nat := 1

def INCOMING_WEBHOOK_BOT : Nat := 2

def OUTGOING_WEBHOOK_BOT : Nat := 3

def EMBEDDED_BOT : Nat := 4

/-- The avatar source of a user: external gravatar
(UserProfile.AVATAR_FROM_GRAVATAR) or an uploaded image
(UserProfile.AVATAR_FROM_USER). -/
inductive AvatarSource where
  | fromGravatar
  | fromUser
  deriving DecidableEq, Repr

/-- A user row of the realm as consulted by add_bot_backend: its delivery
email and its full name. -/
structure BotRecord where
  email : String
  fullName : String
  deriving DecidableEq, Repr

/-- Modelled from the spec: Address(username=..., domain=...).addr_spec,
composing the bot email address from the synthetic local part and the
realm's bot domain. -/
def addr_spec (username domain : String) : String := username ++ "@" ++ domain

/-- Modelled from the spec: check_bot_name_available rejects a bot whose
full name collides with an existing full name in the realm. -/
def check_bot_name_available (store : List BotRecord) (fullName : String) :
    Except ApiError Unit :=
  if store.any fun b => b.fullName == fullName then
    .error (.jsonableError "Name is already in use.")
  else .ok ()

/-- The external helpers consulted by add_bot_backend: check_short_name
and check_full_name (sanitized results or validation errors), the realm's
bot domain (none meaning InvalidFakeEmailDomainError), whether the address
composition raises ValueError, the embedded-bot settings, CreateUserForm
validity on the derived full name and email, the capability checks
check_can_create_bot, check_valid_bot_type and check_valid_interface_type,
access_stream_by_name and check_valid_bot_config. -/
structure AddBotEnv where
  checkShortName : String → Except ApiError String
  checkFullName : String → Except ApiError String
  botDomain : Option String
  addrSpecFails : String → String → Bool
  embeddedBotsEnabled : Bool
  embeddedBotNames : List String
  formValid : String → String → Bool
  checkCanCreateBot : Nat → Except ApiError Unit
  checkValidBotType : Nat → Except ApiError Unit
  checkValidInterfaceType : Nat → Except ApiError Unit
  streamAccess : String → Except ApiError Unit
  checkValidBotConfig : Except ApiError Unit

/-- The computation of service_name in add_bot_backend: for bot types
other than the incoming webhook bot, a missing or empty service name
defaults to the sanitized short name. -/
def effective_service_name (botType : Nat) (serviceNameOpt : Option String)
    (shortName0 : String) : Option String :=
  if botType ≠ INCOMING_WEBHOOK_BOT then
    some (match serviceNameOpt with
          | none => shortName0
          | some s => if s = "" then shortName0 else s)
  else serviceNameOpt

/-- The embedded-bot block of add_bot_backend: embedded bots must be
enabled and the service name must be a known embedded bot (a missing
service name is also rejected). -/
def embedded_bot_check (env : AddBotEnv) (botType : Nat)
    (serviceName : Option String) : Except ApiError Unit :=
  if botType == EMBEDDED_BOT then
    if !env.embeddedBotsEnabled then
      .error (.jsonableError "Embedded bots are not enabled.")
    else if !(match serviceName with
              | none => false
              | some s => env.embeddedBotNames.contains s) then
      .error (.jsonableError "Invalid embedded bot name.")
    else .ok ()
  else .ok ()

/-- The avatar-file block of add_bot_backend: zero files default the
avatar source to gravatar, exactly one file selects an uploaded avatar,
and more than one file is rejected. -/
def avatar_source_from_files (numFiles : Nat) : Except ApiError AvatarSource :=
  if numFiles == 0 then .ok .fromGravatar
  else if numFiles ≠ 1 then
    .error (.jsonableError "You may only upload one file at a time")
  else .ok .fromUser

/-- The default-stream resolution of add_bot_backend: a supplied stream
name is resolved by access_stream_by_name (which may fail). -/
def add_bot_stream_step (env : AddBotEnv) (streamName : Option String) :
    Except ApiError Unit :=
  opt_step streamName fun s => env.streamAccess s

/-- The service-configuration validation of add_bot_backend: for incoming
webhook and embedded bots with a non-empty service name,
check_valid_bot_config is consulted. -/
def bot_config_check (env : AddBotEnv) (botType : Nat)
    (serviceName : Option String) : Except ApiError Unit :=
  if (botType == INCOMING_WEBHOOK_BOT || botType == EMBEDDED_BOT)
      && (match serviceName with
          | none => false
          | some s => !(s == "")) then
    env.checkValidBotConfig
  else .ok ()

/-- add_bot_backend from zerver/views/users.py, over the realm's user rows
projected to email and full name, with the external helpers abstracted by
the environment; on success it returns the updated store (the row created
by do_create_user appended), the chosen avatar source and the composed bot
email address. -/
def add_bot_backend (env : AddBotEnv) (store : List BotRecord) (botType : Nat)
    (fullNameRaw shortNameRaw : String) (serviceNameOpt : Option String)
    (interfaceType numFiles : Nat)
    (defaultSendingStreamName defaultEventsRegisterStreamName : Option String) :
    Except ApiError (List BotRecord × AvatarSource × String) :=
  bindE (env.checkShortName shortNameRaw) fun shortName0 =>
    let serviceName := effective_service_name botType serviceNameOpt shortName0
    let shortName := shortName0 ++ "-bot"
    bindE (env.checkFullName fullNameRaw) fun fullName =>
      match env.botDomain with
      | none => .error (.jsonableError
          "Cannot create bots until FAKE_EMAIL_DOMAIN is correctly configured.")
      | some domain =>
        if env.addrSpecFails shortName domain then
          .error (.jsonableError "Bad name or username")
        else
          let email := addr_spec shortName domain
          seqE (embedded_bot_check env botType serviceName)
            (seqE (if !(env.formValid fullName email) then
                    .error (.jsonableError "Bad name or username")
                  else .ok ())
              (seqE (if store.any fun b => b.email == email then
                      .error .emailAlreadyInUse
                    else .ok ())
                (seqE (check_bot_name_available store fullName)
                  (seqE (env.checkCanCreateBot botType)
                    (seqE (env.checkValidBotType botType)
                      (seqE (env.checkValidInterfaceType interfaceType)
                        (bindE (avatar_source_from_files numFiles)
                          fun avatarSource =>
                          seqE (add_bot_stream_step env defaultSendingStreamName)
                            (seqE (add_bot_stream_step env
                                defaultEventsRegisterStreamName)
                              (seqE (bot_config_check env botType serviceName)
                                (.ok (store ++ [⟨email, fullName⟩],
                                  avatarSource, email)))))))))))

/-- C8: with every validation preceding the avatar-file check passing,
add_bot_backend with more than one uploaded file fails with the
one-file-at-a-time error, and with zero uploaded files (and the remaining
steps passing) it creates the bot with avatar source
AVATAR_FROM_GRAVATAR. -/
theorem add_bot_file_count (env : AddBotEnv) (store : List BotRecord)
    (botType : Nat) (fullNameRaw shortNameRaw sn fn d : String)
    (serviceNameOpt : Option String) (interfaceType : Nat)
    (dss ders : Option String)
    (hsn : env.checkShortName shortNameRaw = .ok sn)
    (hfn : env.checkFullName fullNameRaw = .ok fn)
    (hd : env.botDomain = some d)
    (haddr : env.addrSpecFails (sn ++ "-bot") d = false)
    (hemb : embedded_bot_check env botType
      (effective_service_name botType serviceNameOpt sn) = .ok ())
    (hform : env.formValid fn (addr_spec (sn ++ "-bot") d) = true)
    (hemail : (store.any fun b => b.email == addr_spec (sn ++ "-bot") d) = false)
    (hname : check_bot_name_available store fn = .ok ())
    (hcreate : env.checkCanCreateBot botType = .ok ())
    (htype : env.checkValidBotType botType = .ok ())
    (hiface : env.checkValidInterfaceType interfaceType = .ok ()) :
    (∀ n, 2 ≤ n →
      add_bot_backend env store botType fullNameRaw shortNameRaw serviceNameOpt
        interfaceType n dss ders =
        .error (.jsonableError "You may only upload one file at a time")) ∧
    (add_bot_stream_step env dss = .ok () →
      add_bot_stream_step env ders = .ok () →
      bot_config_check env botType
        (effective_service_name botType serviceNameOpt sn) = .ok () →
      add_bot_backend env store botType fullNameRaw shortNameRaw serviceNameOpt
        interfaceType 0 dss ders =
        .ok (store ++ [⟨addr_spec (sn ++ "-bot") d, fn⟩], .fromGravatar,
          addr_spec (sn ++ "-bot") d)) := by
  have hav : ∀ n, 2 ≤ n → avatar_source_from_files n =
      .error (.jsonableError "You may only upload one file at a time") := by
    intro n hn
    unfold avatar_source_from_files
    rw [if_neg ?_, if_pos (by omega)]
    simp only [beq_iff_eq]
    omega
  constructor
  · intro n hn
    simp only [add_bot_backend, hsn, hfn, hd, bindE_ok, haddr, hemb, hform,
      hemail, hname, hcreate, htype, hiface, hav n hn, bindE_error, seqE_ok,
      Bool.false_eq_true, if_false, Bool.not_true, seqE_error]
  · intro hdss hders hconf
    simp only [add_bot_backend, hsn, hfn, hd, bindE_ok, haddr, hemb, hform,
      hemail, hname, hcreate, htype, hiface, hdss, hders, hconf, seqE_ok,
      Bool.false_eq_true, if_false, Bool.not_true]
    rfl

/-- A benign bot-creation environment over the bot domain
bots.example.com: the name checks return their input unchanged, the user
form validates, and every capability check passes. -/
def botEnv0 : AddBotEnv :=
  { checkShortName := fun s => .ok s
    checkFullName := fun s => .ok s
    botDomain := some "bots.example.com"
    addrSpecFails := fun _ _ => false
    embeddedBotsEnabled := false
    embeddedBotNames := []
    formValid := fun _ _ => true
    checkCanCreateBot := fun _ => .ok ()
    checkValidBotType := fun _ => .ok ()
    checkValidInterfaceType := fun _ => .ok ()
    streamAccess := fun _ => .ok ()
    checkValidBotConfig := .ok () }

/-- C8 witness: the concrete environment over bots.example.com with two
uploaded files fails with the one-file error and with zero files creates
the bot with the gravatar avatar source. -/
theorem add_bot_file_count_witness :
    add_bot_backend botEnv0 [] DEFAULT_BOT "Foo Bot" "foo" none 1 2 none none =
      .error (.jsonableError "You may only upload one file at a time") ∧
    add_bot_backend botEnv0 [] DEFAULT_BOT "Foo Bot" "foo" none 1 0 none none =
      .ok ([⟨"foo-bot@bots.example.com", "Foo Bot"⟩], .fromGravatar,
        "foo-bot@bots.example.com") := by
  constructor
  · exact (add_bot_file_count botEnv0 [] DEFAULT_BOT "Foo Bot" "foo" "foo"
      "Foo Bot" "bots.example.com" none 1 none none rfl rfl rfl rfl rfl rfl
      rfl rfl rfl rfl rfl).1 2 (by omega)
  · exact (add_bot_file_count botEnv0 [] DEFAULT_BOT "Foo Bot" "foo" "foo"
      "Foo Bot" "bots.example.com" none 1 none none rfl rfl rfl rfl rfl rfl
      rfl rfl rfl rfl rfl).2 rfl rfl rfl

/-- C7 counterexample: after a first successful creation of bot foo (full
name Foo Bot, derived email foo-bot@bots.example.com), a second creation
attempt with the identical payload — which produces the same full name on
the same realm — fails with the email-already-in-use error, raised before
the bot-name collision check, not with the name-collision error. -/
theorem add_bot_same_name_counterexample :
    add_bot_backend botEnv0 [] DEFAULT_BOT "Foo Bot" "foo" none 1 0 none none =
      .ok ([⟨"foo-bot@bots.example.com", "Foo Bot"⟩], .fromGravatar,
        "foo-bot@bots.example.com") ∧
    add_bot_backend botEnv0 [⟨"foo-bot@bots.example.com", "Foo Bot"⟩]
      DEFAULT_BOT "Foo Bot" "foo" none 1 0 none none =
      .error .emailAlreadyInUse ∧
    ApiError.emailAlreadyInUse ≠
      ApiError.jsonableError "Name is already in use." := by
  refine ⟨rfl, rfl, by simp⟩

/-- C7 amended: creating a bot with sanitized short name foo on a realm
whose bot domain is bots.example.com derives the email address
foo-bot@bots.example.com and creates the bot with it; a second creation
attempt producing the same full name on the same realm fails before any
account is created — with the bot-name-collision error when its derived
email address is not already in use, while an attempt re-deriving an
email address already in use fails earlier with the email-already-in-use
error. -/
theorem add_bot_email_and_name_collision (env : AddBotEnv)
    (store : List BotRecord) (fullNameRaw fullNameRaw2 shortNameRaw2 fn sn2 : String)
    (serviceNameOpt serviceNameOpt2 : Option String)
    (interfaceType interfaceType2 numFiles2 : Nat)
    (dss2 ders2 : Option String)
    (hsn : env.checkShortName "foo" = .ok "foo")
    (hfn : env.checkFullName fullNameRaw = .ok fn)
    (hd : env.botDomain = some "bots.example.com")
    (haddr : env.addrSpecFails "foo-bot" "bots.example.com" = false)
    (hemb : embedded_bot_check env DEFAULT_BOT
      (effective_service_name DEFAULT_BOT serviceNameOpt "foo") = .ok ())
    (hform : env.formValid fn "foo-bot@bots.example.com" = true)
    (hemail : (store.any fun b => b.email == "foo-bot@bots.example.com") = false)
    (hname : check_bot_name_available store fn = .ok ())
    (hcreate : env.checkCanCreateBot DEFAULT_BOT = .ok ())
    (htype : env.checkValidBotType DEFAULT_BOT = .ok ())
    (hiface : env.checkValidInterfaceType interfaceType = .ok ())
    (hsn2 : env.checkShortName shortNameRaw2 = .ok sn2)
    (hfn2 : env.checkFullName fullNameRaw2 = .ok fn)
    (haddr2 : env.addrSpecFails (sn2 ++ "-bot") "bots.example.com" = false)
    (hemb2 : embedded_bot_check env DEFAULT_BOT
      (effective_service_name DEFAULT_BOT serviceNameOpt2 sn2) = .ok ()) :
    (add_bot_backend env store DEFAULT_BOT fullNameRaw "foo" serviceNameOpt
      interfaceType 0 none none =
      .ok (store ++ [⟨"foo-bot@bots.example.com", fn⟩], .fromGravatar,
        "foo-bot@bots.example.com")) ∧
    (∀ store2 : List BotRecord,
      (store2.any fun b => b.fullName == fn) = true →
      (store2.any fun b =>
        b.email == addr_spec (sn2 ++ "-bot") "bots.example.com") = false →
      env.formValid fn (addr_spec (sn2 ++ "-bot") "bots.example.com") = true →
      add_bot_backend env store2 DEFAULT_BOT fullNameRaw2 shortNameRaw2
        serviceNameOpt2 interfaceType2 numFiles2 dss2 ders2 =
        .error (.jsonableError "Name is already in use.")) ∧
    (∀ store3 : List BotRecord,
      (store3.any fun b =>
        b.email == addr_spec (sn2 ++ "-bot") "bots.example.com") = true →
      env.formValid fn (addr_spec (sn2 ++ "-bot") "bots.example.com") = true →
      add_bot_backend env store3 DEFAULT_BOT fullNameRaw2 shortNameRaw2
        serviceNameOpt2 interfaceType2 numFiles2 dss2 ders2 =
        .error .emailAlreadyInUse) := by
  refine ⟨?_, ?_, ?_⟩
  · have e1 : ("foo" ++ "-bot" : String) = "foo-bot" := rfl
    have e2 : addr_spec "foo-bot" "bots.example.com" =
        "foo-bot@bots.example.com" := rfl
    simp only [add_bot_backend, hsn, hfn, hd, bindE_ok, e1, e2, haddr, hemb,
      hform, hemail, hname, hcreate, htype, hiface, seqE_ok,
      Bool.false_eq_true, if_false, Bool.not_true]
    rfl
  · intro store2 hcoll hfresh hform2
    have hnm : check_bot_name_available store2 fn =
        .error (.jsonableError "Name is already in use.") := by
      unfold check_bot_name_available
      rw [if_pos hcoll]
    simp only [add_bot_backend, hsn2, hfn2, hd, bindE_ok, haddr2, hemb2,
      hform2, hfresh, hnm, seqE_ok, seqE_error, Bool.false_eq_true, if_false,
      Bool.not_true]
  · intro store3 htaken hform2
    simp only [add_bot_backend, hsn2, hfn2, hd, bindE_ok, haddr2, hemb2,
      hform2, htaken, seqE_ok, seqE_error, Bool.false_eq_true, if_false,
      Bool.not_true, if_true]

/-- C7 amended witness: creating bot foo as Foo Bot, then attempting bot
foo2 with the same full name, which fails with the name collision, and
attempting bot foo again, which fails with the email collision. -/
theorem add_bot_email_and_name_collision_witness :
    add_bot_backend botEnv0 [] DEFAULT_BOT "Foo Bot" "foo" none 1 0 none none =
      .ok ([⟨"foo-bot@bots.example.com", "Foo Bot"⟩], .fromGravatar,
        "foo-bot@bots.example.com") ∧
    add_bot_backend botEnv0 [⟨"foo-bot@bots.example.com", "Foo Bot"⟩]
      DEFAULT_BOT "Foo Bot" "foo2" none 1 0 none none =
      .error (.jsonableError "Name is already in use.") ∧
    add_bot_backend botEnv0 [⟨"foo-bot@bots.example.com", "Foo Bot"⟩]
      DEFAULT_BOT "Foo Bot" "foo" none 1 0 none none =
      .error .emailAlreadyInUse := by
  refine ⟨?_, ?_, ?_⟩
  · exact (add_bot_email_and_name_collision botEnv0 [] "Foo Bot" "Foo Bot"
      "foo2" "Foo Bot" "foo2" none none 1 1 0 none none rfl rfl rfl rfl rfl
      rfl rfl rfl rfl rfl rfl rfl rfl rfl rfl).1
  · exact (add_bot_email_and_name_collision botEnv0 [] "Foo Bot" "Foo Bot"
      "foo2" "Foo Bot" "foo2" none none 1 1 0 none none rfl rfl rfl rfl rfl
      rfl rfl rfl rfl rfl rfl rfl rfl rfl rfl).2.1
      [⟨"foo-bot@bots.example.com", "Foo Bot"⟩] rfl rfl rfl
  · exact (add_bot_email_and_name_collision botEnv0 [] "Foo Bot" "Foo Bot"
      "foo" "Foo Bot" "foo" none none 1 1 0 none none rfl rfl rfl rfl rfl
      rfl rfl rfl rfl rfl rfl rfl rfl rfl rfl).2.2
      [⟨"foo-bot@bots.example.com", "Foo Bot"⟩] rfl rfl

end Zulip
